import Mathlib

/-!
Verification development for the funko-drop-bot repository (src/dropbot.py).

The Python source is shallowly embedded below: pure text-analysis functions become
Lean functions over `String` / `List Char`; the per-item body of `main`'s loop
becomes an explicit state-passing step function; the external collaborators
(browser fetches, the Discord webhook, the file system and `json.load`) appear as
explicit arguments so that the control flow of the source around them is captured
exactly.  Machine integers do not occur (Python ints are unbounded); prices are
modelled as `ℚ` (Python parses them with `float`; the decimal price strings that
can reach that call are exactly representable and compare identically).
Python `str.lower`/`str.strip` and the regex character classes `\s`, `\d`, `\w`
are modelled on ASCII, which covers every keyword, phrase and input in this
development.
-/

namespace Dropbot

/-! ### Python string primitives -/

/-- Python's `\s` class / `str.strip` whitespace, ASCII part. -/
def isPySpace (c : Char) : Bool :=
  c == ' ' || c == '\t' || c == '\n' || c == '\r' || c == '\x0b' || c == '\x0c'

/-- Python's `\w` word-character class (ASCII): letters, digits, underscore. -/
def isWordChar (c : Char) : Bool :=
  c.isAlphanum || c == '_'

/-- `str.lower` (ASCII). -/
def pyLower (s : String) : String :=
  String.mk (s.data.map Char.toLower)

/-- `str.strip()` with no arguments: drop leading and trailing whitespace. -/
def pyStrip (s : String) : String :=
  String.mk (((s.data.dropWhile (fun c => isPySpace c)).reverse.dropWhile
    (fun c => isPySpace c)).reverse)

/-- `needle.isPrefixOf`-based scan: Python's `needle in hay` substring test. -/
def listInfix (needle : List Char) : List Char → Bool
  | [] => needle.isEmpty
  | c :: t => needle.isPrefixOf (c :: t) || listInfix needle t

/-- Python's `needle in hay` on strings. -/
def pyIn (needle hay : String) : Bool :=
  listInfix needle.data hay.data

/-- Collapse every whitespace run to a single space
(`re.sub(r"\s+", " ", .)`); the flag records whether the previous
character was part of a whitespace run. -/
def collapseWsAux : List Char → Bool → List Char
  | [], _ => []
  | c :: t, prevSp =>
    if isPySpace c then
      if prevSp then collapseWsAux t true else ' ' :: collapseWsAux t true
    else c :: collapseWsAux t false

/-- `norm` (dropbot.py line 166): `re.sub(r"\s+", " ", (s or "").strip().lower())`. -/
def norm (s : String) : String :=
  String.mk (collapseWsAux ((pyLower (pyStrip s)).data) false)

/-! ### Configuration data (dropbot.py lines 101-150) -/

/-- `ANIME_KEYWORDS` (dropbot.py lines 102-125). -/
def ANIME_KEYWORDS : List String :=
  [ "anime", "manga",
    "one piece", "naruto", "boruto", "bleach",
    "dragon ball", "dbz", "dragonball",
    "jujutsu", "jjk", "jujutsu kaisen",
    "demon slayer", "kimetsu",
    "chainsaw", "chainsaw man",
    "spy x family", "spyxfamily",
    "my hero", "mha", "my hero academia",
    "attack on titan", "aot",
    "hunter x hunter", "hxh",
    "black clover",
    "haikyuu",
    "jojo", "jojo\x27s",
    "tokyo ghoul",
    "sailor moon",
    "yu-gi-oh", "yugioh",
    "inuyasha",
    "fullmetal", "fma", "fullmetal alchemist",
    "evangelion",
    "gundam",
    "ghibli", "studio ghibli",
    "pokemon" ]

/-- `HARD_KEYWORDS` (dropbot.py lines 128-143). -/
def HARD_KEYWORDS : List String :=
  [ "exclusive",
    "limited",
    "chase",
    "convention",
    "sdcc",
    "nycc",
    "funko shop",
    "web exclusive",
    "special edition",
    "glow", "gitd", "glow-in-the-dark",
    "flocked",
    "metallic",
    "diamond",
    "signed" ]

/-- `ULTRA_RARE_MAX` (dropbot.py line 147). -/
def ULTRA_RARE_MAX : Nat := 2500

/-! ### Signal extractor -/

/-- `matches_anime_and_hard` (dropbot.py lines 219-220).  The source's active
definition is the stub `return True`; the real keyword check is commented out
(lines 222-226, embedded below as `matches_anime_and_hard_commented`). -/
def matches_anime_and_hard (_title : String) : Bool :=
  true

/-- The commented-out body of `matches_anime_and_hard` (dropbot.py lines
222-226): thematic keyword AND rarity keyword, both on the normalized title.
This is also the title-only qualification rule stated by the spec for sources
without page-level signal support. -/
def matches_anime_and_hard_commented (title : String) : Bool :=
  let t := norm title
  ANIME_KEYWORDS.any (fun k => pyIn k t) && HARD_KEYWORDS.any (fun k => pyIn k t)

/-- The in-stock phrase list local to `stock_status_from_page_html`
(dropbot.py lines 232-243). -/
def in_stock_phrases : List String :=
  [ "add to basket",
    "add to cart",
    "add to bag",
    "add to trolley",
    "buy now",
    "pre-order",
    "preorder",
    "available for delivery",
    "available to collect",
    "in stock" ]

/-- The out-of-stock phrase list local to `stock_status_from_page_html`
(dropbot.py lines 245-252). -/
def oos_phrases : List String :=
  [ "out of stock",
    "sold out",
    "currently unavailable",
    "not available",
    "temporarily unavailable",
    "no longer available" ]

/-- `stock_status_from_page_html` (dropbot.py lines 228-258). -/
def stock_status_from_page_html (html_lower : String) : String :=
  if oos_phrases.any (fun p => pyIn p html_lower) then "oos"
  else if in_stock_phrases.any (fun p => pyIn p html_lower) then "in_stock"
  else "unknown"

/-- The signal phrase list local to `funko_is_exclusive_or_limited`
(dropbot.py lines 264-271). -/
def funko_signals : List String :=
  [ "web exclusive",
    "funko exclusive",
    "limited edition",
    "special edition",
    "exclusive",
    "limited" ]

/-- `funko_is_exclusive_or_limited` (dropbot.py lines 260-272). -/
def funko_is_exclusive_or_limited (html_lower : String) : Bool :=
  funko_signals.any (fun s => pyIn s html_lower)

/-! ### Limited-edition piece-count extraction (dropbot.py lines 274-299)

`re.search` with the four patterns of `extract_le_piece_count` is modelled by
scanning every start position left to right.  In all four patterns the capture
group `(\d{m,n})` is followed either by `\b` or by `\s*(?:pcs|pieces)\b`, so a
proper prefix of a maximal digit run is always followed by a digit and can never
complete the pattern: the greedy, backtracking capture therefore matches exactly
the maximal digit run at that point, provided its length lies in `[m, n]`. -/

/-- Numeric value of a digit run. -/
def natOfDigits (l : List Char) : Nat :=
  l.foldl (fun n c => 10 * n + (c.toNat - 48)) 0

/-- `\b` at the position just before `l` holds looking rightwards when `l` is
empty or starts with a non-word character (the caller accounts for the left
context). -/
def boundaryAfter : List Char → Bool
  | [] => true
  | c :: _ => !(isWordChar c)

/-- `\s*`. -/
def skipWs (l : List Char) : List Char :=
  l.dropWhile (fun c => isPySpace c)

/-- `(\d{lo,hi})\b` at the current position: the maximal digit run, if its
length is in range and a word boundary follows. -/
def numThenBoundary (lo hi : Nat) (l : List Char) : Option Nat :=
  let ds := l.takeWhile Char.isDigit
  let rest := l.dropWhile Char.isDigit
  if decide (lo ≤ ds.length) && decide (ds.length ≤ hi) && boundaryAfter rest then
    some (natOfDigits ds)
  else none

/-- Literal string match, returning the remainder. -/
def stripLiteral : List Char → List Char → Option (List Char)
  | [], l => some l
  | _ :: _, [] => none
  | p :: ps, c :: cs => if p == c then stripLiteral ps cs else none

/-- `\ble\s*(\d{3,6})\b` at the current position (left `\b` checked by caller). -/
def tryLE (l : List Char) : Option Nat :=
  match stripLiteral ("le".data) l with
  | some r => numThenBoundary 3 6 (skipWs r)
  | none => none

/-- `\blimited edition\s*(\d{3,6})\b` at the current position. -/
def tryLimitedEdition (l : List Char) : Option Nat :=
  match stripLiteral ("limited edition".data) l with
  | some r => numThenBoundary 3 6 (skipWs r)
  | none => none

/-- `\b(\d{3,6})\s*(?:pcs|pieces)\b` at the current position. -/
def tryPcs (l : List Char) : Option Nat :=
  let ds := l.takeWhile Char.isDigit
  let rest := l.dropWhile Char.isDigit
  if decide (3 ≤ ds.length) && decide (ds.length ≤ 6) then
    let r := skipWs rest
    match stripLiteral ("pcs".data) r with
    | some r2 => if boundaryAfter r2 then some (natOfDigits ds) else none
    | none =>
      match stripLiteral ("pieces".data) r with
      | some r2 => if boundaryAfter r2 then some (natOfDigits ds) else none
      | none => none
  else none

/-- `\bmax\.*\s*(\d{2,6})\b` at the current position. -/
def tryMax (l : List Char) : Option Nat :=
  match stripLiteral ("max".data) l with
  | some r => numThenBoundary 2 6 (skipWs (r.dropWhile (fun c => c == '.')))
  | none => none

/-- `re.search` driver: try the single-position matcher at every position whose
left context satisfies the leading `\b` (all four patterns start with a word
character, so the boundary holds exactly when the previous character is not a
word character; at the start of the text it holds vacuously). -/
def searchWithBoundary (tryHere : List Char → Option Nat) :
    Bool → List Char → Option Nat
  | _, [] => none
  | prevWord, c :: t =>
    match (if prevWord then none else tryHere (c :: t)) with
    | some n => some n
    | none => searchWithBoundary tryHere (isWordChar c) t

/-- `t = text.lower().replace(",", "")` (dropbot.py line 285), as a character
list. -/
def le_scan_text (text : String) : List Char :=
  (pyLower text).data.filter (fun c => !(c == ','))

/-- `extract_le_piece_count` (dropbot.py lines 274-299): lower-case the text,
strip commas, then try the four patterns in order, returning the first match.
(`int(m.group(1))` never raises since the capture is a digit run.) -/
def extract_le_piece_count (text : String) : Option Nat :=
  if text = "" then none
  else
    let t := le_scan_text text
    match searchWithBoundary tryLE false t with
    | some n => some n
    | none =>
      match searchWithBoundary tryLimitedEdition false t with
      | some n => some n
      | none =>
        match searchWithBoundary tryPcs false t with
        | some n => some n
        | none => searchWithBoundary tryMax false t

/-! ### Price extraction (dropbot.py lines 150, 202-217)

`CURRENCY_RE = (£\s?\d+(?:\.\d{2})?)|(\d+(?:\.\d{2})?\s?£)`.
`re.search` scans positions left to right and prefers the first alternative at
a given position.  `\d+` never needs digit-level backtracking here: giving back
a digit leaves the next character a digit, which can match none of `\.`,
`\s?`, `£`.  The optional `(?:\.\d{2})?` group in the second alternative is
tried greedily and then dropped on failure, which is modelled explicitly. -/

/-- `(?:\.\d{2})?` tried greedily: the matched text and the remainder. -/
def matchFrac : List Char → (List Char × List Char)
  | '.' :: d1 :: d2 :: rest =>
    if d1.isDigit && d2.isDigit then ([ '.', d1, d2 ], rest)
    else ([], '.' :: d1 :: d2 :: rest)
  | l => ([], l)

/-- First alternative `£\s?\d+(?:\.\d{2})?` at the current position. -/
def tryAlt1 : List Char → Option (List Char)
  | '£' :: r =>
    let sp : List Char × List Char :=
      match r with
      | c :: t => if isPySpace c then ([ c ], t) else ([], c :: t)
      | [] => ([], [])
    let ds := sp.2.takeWhile Char.isDigit
    let r2 := sp.2.dropWhile Char.isDigit
    if ds.isEmpty then none
    else some ('£' :: (sp.1 ++ ds ++ (matchFrac r2).1))
  | _ => none

/-- `\s?£` after the digits (and optional fraction) of the second alternative;
`pre` is the text matched so far. -/
def alt2Tail (pre : List Char) : List Char → Option (List Char)
  | '£' :: _ => some (pre ++ [ '£' ])
  | c :: '£' :: _ => if isPySpace c then some (pre ++ [ c, '£' ]) else none
  | _ => none

/-- Second alternative `\d+(?:\.\d{2})?\s?£` at the current position. -/
def tryAlt2 (l : List Char) : Option (List Char) :=
  let ds := l.takeWhile Char.isDigit
  let r1 := l.dropWhile Char.isDigit
  if ds.isEmpty then none
  else
    let fr := matchFrac r1
    if fr.1.isEmpty then alt2Tail ds r1
    else
      match alt2Tail (ds ++ fr.1) fr.2 with
      | some m => some m
      | none => alt2Tail ds r1

/-- `CURRENCY_RE.search`: earliest position wins, first alternative preferred. -/
def searchPrice : List Char → Option (List Char)
  | [] => none
  | c :: t =>
    match tryAlt1 (c :: t) with
    | some m => some m
    | none =>
      match tryAlt2 (c :: t) with
      | some m => some m
      | none => searchPrice t

/-- `extract_price_text` (dropbot.py lines 202-208): replace newlines by spaces,
search `CURRENCY_RE`, return the stripped matched text (the matched group is
never empty, so the `or ""` fallback is unreachable). -/
def extract_price_text (text : String) : Option String :=
  if text = "" then none
  else
    let t := text.data.map (fun c => if c == '\n' then ' ' else c)
    match searchPrice t with
    | some m => some (pyStrip (String.mk m))
    | none => none

/-- `float()` on an unsigned decimal literal: integer digits, optionally a dot
and fraction digits (at least one digit overall). -/
def parseDecimalCore (l : List Char) : Option ℚ :=
  let ip := l.takeWhile Char.isDigit
  let r := l.dropWhile Char.isDigit
  match r with
  | [] => if ip.isEmpty then none else some ((natOfDigits ip : ℚ))
  | '.' :: fr =>
    if fr.all Char.isDigit && !(ip.isEmpty && fr.isEmpty) then
      some ((natOfDigits ip : ℚ) + (natOfDigits fr : ℚ) / ((10 : ℚ) ^ fr.length))
    else none
  | _ => none

/-- `price_to_float` (dropbot.py lines 210-217): strip every `£` and
surrounding whitespace, then `float(p)`, with any parse failure mapped to
`None`.  `float` is modelled on (optionally signed) plain decimal literals —
the only shapes `CURRENCY_RE` matches can produce; prices are represented as
`ℚ`, on which the price strings reaching this code compare exactly as their
`float` images do. -/
def price_to_float (price_text : Option String) : Option ℚ :=
  match price_text with
  | none => none
  | some s =>
    if s = "" then none
    else
      let p := pyStrip (String.mk (s.data.filter (fun c => !(c == '£'))))
      match p.data with
      | '+' :: r => parseDecimalCore r
      | '-' :: r => (parseDecimalCore r).map (fun q => -q)
      | r => parseDecimalCore r

/-! ### Candidate normalizer (dropbot.py lines 198-200, 304-357) -/

/-- `looks_like_product_url` (dropbot.py lines 198-200). -/
def looks_like_product_url (u : String) : Bool :=
  let ul := pyLower u
  ([ "/products/", "/product/", "/p/", "/store/" ].any (fun x => pyIn x ul)) &&
    !([ "/search", "/promotion", "/collections", "/category" ].any
      (fun x => pyIn x ul))

/-- Scheme of an absolute URL: everything before the first colon. -/
def schemeOf (base : String) : String :=
  String.mk (base.data.takeWhile (fun c => !(c == ':')))

/-- `scheme://authority` part of an absolute URL. -/
def originOf (base : String) : String :=
  let sch := base.data.takeWhile (fun c => !(c == ':'))
  match base.data.dropWhile (fun c => !(c == ':')) with
  | ':' :: '/' :: '/' :: r =>
    String.mk (sch ++ [ ':', '/', '/' ] ++ r.takeWhile (fun c => !(c == '/')))
  | _ => base

/-- `urllib.parse.urljoin`, modelled at its single call site (dropbot.py line
327, reached only when `href` starts with `/`): a protocol-relative reference
takes the base's scheme, a path-absolute reference takes the base's
`scheme://authority`; the configured bases are bare origins. -/
def urljoin (base href : String) : String :=
  match href.data with
  | '/' :: '/' :: _ => schemeOf base ++ ":" ++ href
  | _ => originOf base ++ href

/-- A raw anchor observation handed to `extract_listing_items`: the `href`
attribute, the anchor's inner text, and the parent node's inner text (`none`
models the `inner_text` call raising, dropbot.py lines 339-343). -/
structure Anchor where
  href : String
  text : String
  parent_text : Option String
deriving DecidableEq, Repr

/-- A `CandidateItem`: the dict built at dropbot.py lines 345-351. -/
structure Item where
  title : String
  url : String
  listing_price_text : Option String
deriving DecidableEq, Repr

/-- Does the string start with `/`? (`href.startswith("/")`.) -/
def startsWithSlash (s : String) : Bool :=
  match s.data with
  | '/' :: _ => true
  | _ => false

/-- The per-anchor body of `extract_listing_items`'s loop (dropbot.py lines
315-351): skip empty hrefs, resolve relative hrefs, strip the query string,
keep only product-like URLs and anchor texts of length at least 3. -/
def normalize_anchor (base_url : String) (a : Anchor) : Option Item :=
  if a.href = "" then none
  else
    let abs0 := if startsWithSlash a.href then urljoin base_url a.href else a.href
    let abs_url := String.mk (abs0.data.takeWhile (fun c => !(c == '?')))
    if !(looks_like_product_url abs_url) then none
    else
      let text := pyStrip a.text
      if text = "" || text.length < 3 then none
      else some ⟨ text, abs_url, a.parent_text.bind (fun pt => extract_price_text pt) ⟩

/-- The filtered candidate list, in page order, before deduplication. -/
def listing_candidates (base_url : String) (anchors : List Anchor) : List Item :=
  anchors.filterMap (normalize_anchor base_url)

/-- Assignment `d[k] = v` on a Python dict modelled as an insertion-ordered
association list: an existing key keeps its position and gets the new value, a
new key is appended. -/
def upd (m : List (String × Item)) (k : String) (v : Item) : List (String × Item) :=
  match m with
  | [] => [ (k, v) ]
  | (k1, v1) :: rest => if k1 = k then (k, v) :: rest else (k1, v1) :: upd rest k v

/-- The dict built by the dedup loop `for it in items: dedup[it["url"]] = it`
(dropbot.py lines 354-356). -/
def pydict_of (items : List Item) : List (String × Item) :=
  items.foldl (fun m it => upd m it.url it) []

/-- `extract_listing_items` (dropbot.py lines 304-357), over the list of anchor
observations of the page: normalize, then deduplicate by URL via the dict
(`list(dedup.values())`). -/
def extract_listing_items (base_url : String) (anchors : List Anchor) : List Item :=
  (pydict_of (listing_candidates base_url anchors)).map Prod.snd

/-- First-occurrence lookup in an association list (Python dict lookup; the
key lists handled here are duplicate-free, so first occurrence is the
occurrence). -/
def lookupA : List (String × Item) → String → Option Item
  | [], _ => none
  | (k, v) :: rest, u => if k = u then some v else lookupA rest u

/-- The last element of `l` whose URL is `u`. -/
def lastWith (u : String) (l : List Item) : Option Item :=
  l.reverse.find? (fun it => decide (it.url = u))

/-- `Option.or`: keep the first defined value. -/
def optOr (a b : Option Item) : Option Item :=
  match a with
  | some v => some v
  | none => b

/-! ### State store and the per-item step of `main` (dropbot.py lines 363-540)

The persisted `ItemRecord` mirrors the dict written at dropbot.py lines
430-443 and 483-488.  The `id` key merely repeats the dict key
`stable_item_id(url)` (a truncated SHA-256 of the URL, not itself analysed by
any claim), so it is not duplicated as a field here. -/

/-- A persisted item record.  `Option` models a missing key or a stored
`None`, which `dict.get` cannot tell apart. -/
structure ItemRec where
  title : String
  url : String
  source : String
  first_seen : Nat
  last_seen : Nat
  listing_price_text : Option String
  last_price : Option ℚ
  last_stock : Option String
  last_le_count : Option Nat
  last_funko_exclusive : Option Bool
  last_price_text : Option String
deriving DecidableEq, Repr

/-- The result of a successful product-page fetch: `product_page.content()`
and `inner_text("body")` (the latter is `""` when its own `try` fails,
dropbot.py lines 466-470).  `main_item_step` receives `none` when the fetch
itself raises (goto/content), in which case the source reaches none of the
record updates or alert checks. -/
structure Fetched where
  html : String
  body_text : String
deriving DecidableEq, Repr

/-- Which alert list of `main` received an entry for this item this run:
`alerts_new` (line 450), `alerts_stock` (506), `alerts_price` (515),
`alerts_new` again for the Funko exclusive-detected message (523), and
`alerts_ultra` (532).  Each site appends at most once per item per run. -/
structure ItemAlerts where
  newListing : Bool
  inStockFlip : Bool
  priceChange : Bool
  funkoExclDetected : Bool
  ultraRare : Bool
deriving DecidableEq, Repr

/-- Python `x or y` for an optional int: `0` and `None` are falsy
(dropbot.py line 480). -/
def pyOrNat (a b : Option Nat) : Option Nat :=
  match a with
  | some n => if n = 0 then b else some n
  | none => b

/-- Python `x or y` for an optional string: `""` and `None` are falsy
(dropbot.py line 472). -/
def pyOrStr (a b : Option String) : Option String :=
  match a with
  | some s => if s = "" then b else some s
  | none => b

/-- `is_anime` (dropbot.py lines 416-417). -/
def is_anime_title (title : String) : Bool :=
  ANIME_KEYWORDS.any (fun k => pyIn k (norm title))

/-- `is_hard_title` (dropbot.py line 421). -/
def is_hard_title_check (title : String) : Bool :=
  HARD_KEYWORDS.any (fun k => pyIn k (norm title))

/-- `should_open` (dropbot.py line 422): deep-check only anime-ish titles that
also carry a hard keyword or live on funko.com. -/
def should_open (title product_url : String) : Bool :=
  is_anime_title title && (is_hard_title_check title || pyIn ("funko.com") product_url)

/-- The qualification verdict (dropbot.py lines 495-501): for funko.com the
page-level exclusivity signal replaces the title-level rarity keyword;
otherwise `matches_anime_and_hard` on the title. -/
def item_qualifies (title product_url html_lower : String) : Bool :=
  if pyIn ("funko.com") product_url then
    is_anime_title title && funko_is_exclusive_or_limited html_lower
  else matches_anime_and_hard title

/-- Stock status observed on a fetched product page
(dropbot.py lines 460-463: `content().lower()` into the scanner). -/
def observed_stock (fr : Fetched) : String :=
  stock_status_from_page_html (pyLower fr.html)

/-- LE piece count observed for a fetched product page (dropbot.py line 480):
page text first, title as fallback, with Python `or` truthiness. -/
def observed_le_count (title : String) (fr : Fetched) : Option Nat :=
  pyOrNat (extract_le_piece_count fr.body_text) (extract_le_piece_count title)

/-- Price text observed for a fetched product page (dropbot.py line 472):
page body text first, listing price text as fallback, with Python `or`
truthiness. -/
def observed_price_text (listing_price_text : Option String) (fr : Fetched) :
    Option String :=
  pyOrStr (extract_price_text fr.body_text)
    (extract_price_text (listing_price_text.getD ""))

/-- Numeric price observed for a fetched product page (dropbot.py line 473). -/
def observed_price (listing_price_text : Option String) (fr : Fetched) : Option ℚ :=
  price_to_float (observed_price_text listing_price_text fr)

/-- The minimal record saved unconditionally for every observed item
(dropbot.py lines 430-443): identity fields refreshed, product-level fields
carried over from the previous record.  The fresh dict has no
`last_price_text` key. -/
def minimal_record (prev : Option ItemRec) (name title product_url : String)
    (listing_price_text : Option String) (now : Nat) : ItemRec :=
  { title := title
    url := product_url
    source := name
    first_seen := (prev.map (fun r => r.first_seen)).getD now
    last_seen := now
    listing_price_text := listing_price_text
    last_price := prev.bind (fun r => r.last_price)
    last_stock := prev.bind (fun r => r.last_stock)
    last_le_count := prev.bind (fun r => r.last_le_count)
    last_funko_exclusive := prev.bind (fun r => r.last_funko_exclusive)
    last_price_text := none }

/-- The body of the product-page `try` block (dropbot.py lines 460-535),
reached when `should_open` held and the fetch succeeded: extract page signals,
overwrite the product-level fields of the record, and decide the stock / price
/ funko-exclusive / ultra-rare alerts against the previous record. -/
def detail_step (prev : Option ItemRec) (title product_url : String)
    (listing_price_text : Option String) (rec0 : ItemRec) (newL : Bool)
    (fr : Fetched) : ItemRec × ItemAlerts :=
  let html_lower := pyLower fr.html
  let stock := observed_stock fr
  let page_price_text := observed_price_text listing_price_text fr
  let page_price_val := price_to_float page_price_text
  let is_funko := pyIn ("funko.com") product_url
  let funko_excl : Option Bool :=
    if is_funko then some (funko_is_exclusive_or_limited html_lower) else none
  let le_count := observed_le_count title fr
  let rec1 : ItemRec :=
    { rec0 with
      last_stock := some stock
      last_price := page_price_val
      last_price_text := page_price_text
      last_funko_exclusive := funko_excl
      last_le_count := le_count }
  let prev_stock := prev.bind (fun r => r.last_stock)
  let prev_price := prev.bind (fun r => r.last_price)
  let prev_le := prev.bind (fun r => r.last_le_count)
  let prev_funko_excl := prev.bind (fun r => r.last_funko_exclusive)
  let qualifies := item_qualifies title product_url html_lower
  let flip := qualifies &&
    (decide (prev_stock = none) || decide (prev_stock = some ("oos")) ||
      decide (prev_stock = some ("unknown"))) && decide (stock = "in_stock")
  let priceChg := qualifies && page_price_val.isSome && prev_price.isSome &&
    decide (¬ (page_price_val = prev_price))
  let funkoDet := is_funko && is_anime_title title &&
    funko_excl.getD false && !(prev_funko_excl.getD false)
  let ultra := qualifies &&
    (match le_count with
     | some n => decide (n ≤ ULTRA_RARE_MAX)
     | none => false) && decide (¬ (prev_le = le_count))
  (rec1, ⟨ newL, flip, priceChg, funkoDet, ultra ⟩)

/-- One iteration of `main`'s per-item loop (dropbot.py lines 410-540) for a
single candidate: `prev` is the state-store record under the item's identity
(`none` when the identity was never persisted), `fetched` the outcome of the
product-page fetch, consulted only when `should_open` holds.  Returns the
record written back to the store and the alerts appended for this item. -/
def main_item_step (prev : Option ItemRec) (name title product_url : String)
    (listing_price_text : Option String) (now : Nat) (fetched : Option Fetched) :
    ItemRec × ItemAlerts :=
  let rec0 := minimal_record prev name title product_url listing_price_text now
  let newL := prev.isNone && matches_anime_and_hard title
  if !(should_open title product_url) then (rec0, ⟨ newL, false, false, false, false ⟩)
  else
    match fetched with
    | none => (rec0, ⟨ newL, false, false, false, false ⟩)
    | some fr => detail_step prev title product_url listing_price_text rec0 newL fr

/-- Iterate `main_item_step` over successive runs that observe the same
listing entry (same title/url/source), feeding each run's saved record to the
next; one `(now, fetched)` pair per run. -/
def run_steps (name title product_url : String) (listing_price_text : Option String) :
    Option ItemRec → List (Nat × Option Fetched) → List (ItemRec × ItemAlerts)
  | _, [] => []
  | prev, (now, f) :: rest =>
    let r := main_item_step prev name title product_url listing_price_text now f
    r :: run_steps name title product_url listing_price_text (some r.1) rest

/-! ### Alert delivery (dropbot.py lines 169-196) -/

/-- One fold step of the chunking loop (dropbot.py lines 179-183): flush the
current chunk when adding the message would exceed the 1800-character budget,
then append the message plus a blank line. -/
def chunkStep (acc : String × List String) (m : String) : String × List String :=
  let flushed :=
    if acc.1.length + m.length + 2 > 1800 then ("", acc.2 ++ [ acc.1 ])
    else acc
  (flushed.1 ++ m ++ "\n\n", flushed.2)

/-- The chunk list built by `send_discord` (dropbot.py lines 177-185),
including the final `if chunk.strip(): chunks.append(chunk)`. -/
def chunksOf (messages : List String) : List String :=
  let r := messages.foldl chunkStep ("", [])
  if pyStrip r.1 = "" then r.2 else r.2 ++ [ r.1 ]

/-- Outcome of a `send_discord` call: whether it fell back to printing
(no webhook configured), the payloads posted (each chunk stripped, line 188),
in order, and whether a transport exception escaped the function. -/
structure SendOutcome where
  printed : Bool
  attempted : List String
  raised : Bool
deriving DecidableEq, Repr

/-- The posting loop (dropbot.py lines 187-196): one `urlopen` per chunk, in
order, with no exception handler — the first failing post raises out of the
loop, and the remaining chunks are never attempted. -/
def postLoop (post : String → Bool) : List String → List String × Bool
  | [] => ([], false)
  | c :: rest =>
    if post c then
      let r := postLoop post rest
      (c :: r.1, r.2)
    else ([ c ], true)

/-- `send_discord` (dropbot.py lines 169-196).  `post` is the external webhook
transport: `post payload = false` models `urlopen` raising for that chunk. -/
def send_discord (webhook_set : Bool) (messages : List String)
    (post : String → Bool) : SendOutcome :=
  if messages = [] then ⟨ false, [], false ⟩
  else if !webhook_set then ⟨ true, [], false ⟩
  else
    let r := postLoop post ((chunksOf messages).map pyStrip)
    ⟨ false, r.1, r.2 ⟩

/-! ### State persistence (dropbot.py lines 156-164) -/

/-- Outcome of a Python call: a value, or a raised exception. -/
inductive PyResult (α : Type) where
  | ok (val : α) : PyResult α
  | exc (msg : String) : PyResult α
deriving DecidableEq, Repr

/-- A per-target record (dropbot.py lines 402-407). -/
structure TargetRec where
  digest : String
  last_checked : Nat
  url : String
  changed : Bool
deriving DecidableEq, Repr

/-- The persisted state document: the two top-level mappings. -/
structure BotState where
  items : List (String × ItemRec)
  targets : List (String × TargetRec)
deriving DecidableEq

/-- `{"items": {}, "targets": {}}` (dropbot.py line 160). -/
def empty_state : BotState := ⟨ [], [] ⟩

/-- `load_state` (dropbot.py lines 156-160).  The file system and `json.load`
are external: `file_exists` is `os.path.exists(STATE_FILE)` and `parsed` is
the outcome of `json.load` on the file's contents (`PyResult.exc` models
`json.load` raising, e.g. `JSONDecodeError` on corrupt content).  The source
wraps `json.load` in no handler, so its outcome is returned unchanged. -/
def load_state (file_exists : Bool) (parsed : PyResult BotState) : PyResult BotState :=
  if file_exists then parsed else PyResult.ok empty_state

/-! ### Spec-side definitions -/

/-- Modelled from the spec: the `UltraRareSignal` rule of §4.4 — the event
fires when the item qualifies, a new LE count is known, it is at most the
ceiling, and it "differs from the previously alerted LE count for this
identity".  The tracker carries the count attached to the most recent
`UltraRareSignal` alert; each list element is one run's
(qualification verdict, extracted LE count). -/
def spec_ultra_trace (ceiling : Nat) :
    Option Nat → List (Bool × Option Nat) → List Bool
  | _, [] => []
  | lastAlerted, (q, c) :: rest =>
    let fires := q &&
      (match c with
       | some n => decide (n ≤ ceiling)
       | none => false) && decide (¬ (c = lastAlerted))
    fires :: spec_ultra_trace ceiling (if fires then c else lastAlerted) rest

/-! ## Auxiliary lemmas about the dedup dict -/

theorem optOr_assoc (a b c : Option Item) :
    optOr (optOr a b) c = optOr a (optOr b c) := by
  cases a <;> simp [optOr]

theorem optOr_none_right (a : Option Item) : optOr a none = a := by
  cases a <;> simp [optOr]

theorem lookupA_upd (m : List (String × Item)) (k : String) (v : Item) (u : String) :
    lookupA (upd m k v) u = if u = k then some v else lookupA m u := by
  induction m with
  | nil =>
    by_cases h : u = k
    · simp [upd, lookupA, h]
    · simp [upd, lookupA, h, Ne.symm h]
  | cons p rest ih =>
    obtain ⟨ k1, v1 ⟩ := p
    by_cases h1 : k1 = k
    · subst h1
      by_cases h2 : u = k1
      · subst h2
        simp [upd, lookupA]
      · simp [upd, lookupA, h2, Ne.symm h2]
    · by_cases h2 : k1 = u
      · subst h2
        simp [upd, lookupA, h1, Ne.symm h1, lookupA, ih]
      · simp [upd, lookupA, h1, h2, ih]

theorem keys_upd (m : List (String × Item)) (k : String) (v : Item) :
    (upd m k v).map Prod.fst =
      if k ∈ m.map Prod.fst then m.map Prod.fst else m.map Prod.fst ++ [ k ] := by
  induction m with
  | nil => simp [upd]
  | cons p rest ih =>
    obtain ⟨ k1, v1 ⟩ := p
    by_cases h1 : k1 = k
    · subst h1
      simp [upd]
    · by_cases h2 : k ∈ rest.map Prod.fst
      · simp [upd, h1, ih, h2, Ne.symm h1]
      · simp [upd, h1, ih, h2, Ne.symm h1]

theorem keys_upd_mem (m : List (String × Item)) (k : String) (v : Item) (u : String) :
    u ∈ (upd m k v).map Prod.fst ↔ (u ∈ m.map Prod.fst ∨ u = k) := by
  rw [keys_upd]
  by_cases h : k ∈ m.map Prod.fst
  · simp only [h, if_true]
    constructor
    · exact Or.inl
    · rintro (hu | hu)
      · exact hu
      · exact hu ▸ h
  · simp [h]

theorem nodup_upd (m : List (String × Item)) (k : String) (v : Item)
    (h : (m.map Prod.fst).Nodup) : ((upd m k v).map Prod.fst).Nodup := by
  rw [keys_upd]
  by_cases hk : k ∈ m.map Prod.fst
  · simpa [hk] using h
  · simp [hk, List.nodup_append, h]

theorem urlkey_upd (m : List (String × Item)) (k : String) (v : Item)
    (h : ∀ p ∈ m, (Prod.snd p).url = Prod.fst p) (hv : v.url = k) :
    ∀ p ∈ upd m k v, (Prod.snd p).url = Prod.fst p := by
  induction m with
  | nil =>
    intro p hp
    simp [upd] at hp
    subst hp
    exact hv
  | cons q rest ih =>
    obtain ⟨ k1, v1 ⟩ := q
    by_cases h1 : k1 = k
    · subst h1
      intro p hp
      simp only [upd, if_pos rfl] at hp
      rcases List.mem_cons.mp hp with hp | hp
      · subst hp; exact hv
      · exact h p (List.mem_cons_of_mem _ hp)
    · intro p hp
      simp only [upd, h1, if_false] at hp
      rcases List.mem_cons.mp hp with hp | hp
      · subst hp; exact h _ (List.mem_cons_self _ _)
      · exact ih (fun q hq => h q (List.mem_cons_of_mem _ hq)) p hp

theorem lookupA_some_mem_keys (m : List (String × Item)) (u : String) (x : Item)
    (h : lookupA m u = some x) : u ∈ m.map Prod.fst := by
  induction m with
  | nil => simp [lookupA] at h
  | cons p rest ih =>
    obtain ⟨ k, v ⟩ := p
    by_cases hk : k = u
    · simp [hk]
    · simp only [lookupA, hk, if_false] at h
      simpa using Or.inr (ih h)

theorem find?_append (l1 l2 : List Item) (p : Item → Bool) :
    (l1 ++ l2).find? p = optOr (l1.find? p) (l2.find? p) := by
  induction l1 with
  | nil => simp [optOr]
  | cons x t ih =>
    by_cases hx : p x
    · simp [List.find?, hx, optOr]
    · simp [List.find?, hx, ih]

theorem lastWith_cons (u : String) (x : Item) (t : List Item) :
    lastWith u (x :: t) =
      optOr (lastWith u t) (if x.url = u then some x else none) := by
  unfold lastWith
  rw [List.reverse_cons, find?_append]
  congr 1
  by_cases hx : x.url = u <;> simp [List.find?, hx]

theorem lookupA_fold (l : List Item) :
    ∀ (m : List (String × Item)) (u : String),
      lookupA (l.foldl (fun m it => upd m it.url it) m) u =
        optOr (lastWith u l) (lookupA m u) := by
  induction l with
  | nil => intro m u; simp [lastWith, optOr]
  | cons x t ih =>
    intro m u
    have step : (x :: t).foldl (fun m it => upd m it.url it) m =
        t.foldl (fun m it => upd m it.url it) (upd m x.url x) := rfl
    rw [step, ih, lastWith_cons, optOr_assoc]
    congr 1
    rw [lookupA_upd]
    by_cases hx : x.url = u
    · simp [hx, optOr]
    · simp [hx, Ne.symm hx, optOr]

theorem mem_values_iff (m : List (String × Item))
    (hkeys : (m.map Prod.fst).Nodup)
    (hurl : ∀ p ∈ m, (Prod.snd p).url = Prod.fst p) (it : Item) :
    it ∈ m.map Prod.snd ↔ lookupA m it.url = some it := by
  induction m with
  | nil => simp [lookupA]
  | cons p rest ih =>
    obtain ⟨ k, v ⟩ := p
    simp only [List.map_cons, List.nodup_cons] at hkeys
    have hvk : v.url = k := hurl _ (List.mem_cons_self _ _)
    have hrest : ∀ q ∈ rest, (Prod.snd q).url = Prod.fst q :=
      fun q hq => hurl q (List.mem_cons_of_mem _ hq)
    constructor
    · intro hmem
      simp only [List.map_cons] at hmem
      rcases List.mem_cons.mp hmem with hmem | hmem
      · subst hmem
        simp [lookupA, hvk]
      · have hl := (ih hkeys.2 hrest).mp hmem
        have hne : ¬ (k = it.url) := by
          intro hk
          exact hkeys.1 (by rw [hk]; exact lookupA_some_mem_keys rest it.url it hl)
        simpa [lookupA, hne] using hl
    · intro hl
      by_cases hk : k = it.url
      · simp only [lookupA, hk, if_pos rfl] at hl
        have hv : v = it := by injection hl
        subst hv
        exact List.mem_cons_self _ _
      · simp only [lookupA, hk, if_false] at hl
        exact List.mem_cons_of_mem _ ((ih hkeys.2 hrest).mpr hl)

theorem pydict_keys_nodup_aux (l : List Item) :
    ∀ m, (m.map Prod.fst).Nodup →
      ((l.foldl (fun m it => upd m it.url it) m).map Prod.fst).Nodup := by
  induction l with
  | nil => intro m h; exact h
  | cons x t ih => intro m h; exact ih _ (nodup_upd m x.url x h)

theorem pydict_keys_nodup (items : List Item) :
    ((pydict_of items).map Prod.fst).Nodup :=
  pydict_keys_nodup_aux items [] (by simp)

theorem pydict_url_eq_key_aux (l : List Item) :
    ∀ m, (∀ p ∈ m, (Prod.snd p).url = Prod.fst p) →
      ∀ p ∈ l.foldl (fun m it => upd m it.url it) m, (Prod.snd p).url = Prod.fst p := by
  induction l with
  | nil => intro m h; exact h
  | cons x t ih => intro m h; exact ih _ (urlkey_upd m x.url x h rfl)

theorem pydict_url_eq_key (items : List Item) :
    ∀ p ∈ pydict_of items, (Prod.snd p).url = Prod.fst p :=
  pydict_url_eq_key_aux items [] (by simp)

theorem pydict_keys_mem_aux (l : List Item) :
    ∀ m (u : String),
      (u ∈ (l.foldl (fun m it => upd m it.url it) m).map Prod.fst ↔
        u ∈ m.map Prod.fst ∨ u ∈ l.map Item.url) := by
  induction l with
  | nil => intro m u; simp
  | cons x t ih =>
    intro m u
    have step : (x :: t).foldl (fun m it => upd m it.url it) m =
        t.foldl (fun m it => upd m it.url it) (upd m x.url x) := rfl
    rw [step, ih, keys_upd_mem]
    simp
    tauto

theorem pydict_keys_mem (items : List Item) (u : String) :
    u ∈ (pydict_of items).map Prod.fst ↔ u ∈ items.map Item.url := by
  have := pydict_keys_mem_aux items [] u
  simpa using this

theorem map_url_values (m : List (String × Item))
    (hurl : ∀ p ∈ m, (Prod.snd p).url = Prod.fst p) :
    (m.map Prod.snd).map Item.url = m.map Prod.fst := by
  induction m with
  | nil => simp
  | cons p rest ih =>
    simp only [List.map_cons]
    rw [hurl p (List.mem_cons_self _ _),
      ih (fun q hq => hurl q (List.mem_cons_of_mem _ hq))]

/-! ## Claim C3 -/

/-- C3, counterexample: the Normalizer's dedup keeps the LAST occurrence of a
duplicated canonical URL, not the first.  Two anchors share the URL; the
candidate list records "Item A" first, yet the output retains "Item B" (the
dict assignment `dedup[it["url"]] = it` overwrites the value on every
occurrence). -/
theorem dedup_first_occurrence_counterexample :
    extract_listing_items "https://b.example"
        [ ⟨ "https://s.example.com/products/x", "Item A", none ⟩,
          ⟨ "https://s.example.com/products/x", "Item B", none ⟩ ] =
      [ ⟨ "Item B", "https://s.example.com/products/x", none ⟩ ] ∧
    listing_candidates "https://b.example"
        [ ⟨ "https://s.example.com/products/x", "Item A", none ⟩,
          ⟨ "https://s.example.com/products/x", "Item B", none ⟩ ] =
      [ ⟨ "Item A", "https://s.example.com/products/x", none ⟩,
        ⟨ "Item B", "https://s.example.com/products/x", none ⟩ ] ∧
    ¬ (("Item B" : String) = "Item A") := by
  refine ⟨ by decide, by decide, by decide ⟩

/-- C3 (amended): for every anchor list, the Normalizer's output contains each
canonical URL exactly once (exactly the URLs of the filtered candidate list),
and the retained `CandidateItem` for a URL is the one from the LAST occurrence
of that URL among the candidates; earlier duplicates are discarded. -/
theorem dedup_keeps_last_occurrence (base_url : String) (anchors : List Anchor) :
    ((extract_listing_items base_url anchors).map Item.url).Nodup ∧
    (∀ u : String, u ∈ (extract_listing_items base_url anchors).map Item.url ↔
      u ∈ (listing_candidates base_url anchors).map Item.url) ∧
    (∀ it ∈ extract_listing_items base_url anchors,
      lastWith it.url (listing_candidates base_url anchors) = some it) := by
  refine ⟨ ?_, ?_, ?_ ⟩
  · unfold extract_listing_items
    rw [map_url_values _ (pydict_url_eq_key _)]
    exact pydict_keys_nodup _
  · intro u
    unfold extract_listing_items
    rw [map_url_values _ (pydict_url_eq_key _)]
    exact pydict_keys_mem _ u
  · intro it hit
    unfold extract_listing_items at hit
    have hl := (mem_values_iff _ (pydict_keys_nodup _) (pydict_url_eq_key _) it).mp hit
    have hf := lookupA_fold (listing_candidates base_url anchors) [] it.url
    unfold pydict_of at hl
    rw [hf] at hl
    simp only [lookupA] at hl
    rwa [optOr_none_right] at hl

/-- Witness for `dedup_keeps_last_occurrence` at the counterexample input. -/
theorem dedup_keeps_last_occurrence_witness :
    (⟨ "Item B", "https://s.example.com/products/x", none ⟩ : Item) ∈
      extract_listing_items "https://b.example"
        [ ⟨ "https://s.example.com/products/x", "Item A", none ⟩,
          ⟨ "https://s.example.com/products/x", "Item B", none ⟩ ] ∧
    lastWith "https://s.example.com/products/x"
        (listing_candidates "https://b.example"
          [ ⟨ "https://s.example.com/products/x", "Item A", none ⟩,
            ⟨ "https://s.example.com/products/x", "Item B", none ⟩ ]) =
      some ⟨ "Item B", "https://s.example.com/products/x", none ⟩ :=
  ⟨ by decide,
    (dedup_keeps_last_occurrence "https://b.example"
      [ ⟨ "https://s.example.com/products/x", "Item A", none ⟩,
        ⟨ "https://s.example.com/products/x", "Item B", none ⟩ ]).2.2
      ⟨ "Item B", "https://s.example.com/products/x", none ⟩ (by decide) ⟩

/-! ## Claims C1 and C2 -/

/-- C1: evidence that the code contradicts the claim (and its own comments).
For the non-funko source scenario with title "Generic Pop Figure":
the active `matches_anime_and_hard` is the stub `return True`, so the
qualification verdict is `true`, not `false`; the commented-out keyword check
(the rule the spec states) is `false` on this title; no detail fetch is
triggered (`should_open` is `false`, since the title has no anime keyword);
but a NewListing alert DOES fire for a never-seen item, contradicting
"no alert of any kind fires". -/
theorem generic_title_verdict_and_alert :
    matches_anime_and_hard "Generic Pop Figure" = true ∧
    matches_anime_and_hard_commented "Generic Pop Figure" = false ∧
    should_open "Generic Pop Figure" "https://hmv.com/store/generic-pop-figure" = false ∧
    (main_item_step none "HMV" "Generic Pop Figure"
        "https://hmv.com/store/generic-pop-figure" none 100 none).2 =
      ⟨ true, false, false, false, false ⟩ := by
  refine ⟨ by decide, by decide, by decide, by decide ⟩

/-- C2: evidence that NewListing does NOT require the title-only qualification
check.  With the stub `matches_anime_and_hard = True`, a brand-new item whose
title fails the (commented-out / spec) thematic-AND-rarity check still fires
NewListing, while a previously-seen item never does: the event fires iff the
identity is new, with the title check vacuous. -/
theorem new_listing_fires_without_title_match :
    (main_item_step none "Smyths" "Generic Pop Figure"
        "https://www.smythstoys.com/p/generic-pop-figure" none 200 none).2.newListing =
      true ∧
    matches_anime_and_hard_commented "Generic Pop Figure" = false ∧
    (main_item_step
        (some ⟨ "Generic Pop Figure", "https://www.smythstoys.com/p/generic-pop-figure",
          "Smyths", 100, 100, none, none, none, none, none, none ⟩)
        "Smyths" "Generic Pop Figure"
        "https://www.smythstoys.com/p/generic-pop-figure" none 200 none).2.newListing =
      false := by
  refine ⟨ by decide, by decide, by decide ⟩

/-! ## Claim C6 -/

/-- C6: stock-status inference returns "oos" as soon as any out-of-stock
phrase occurs (regardless of in-stock phrases — the out-of-stock verdict wins
co-occurrence), else "in_stock" when any in-stock phrase occurs, else
"unknown". -/
theorem stock_status_precedence (s : String) :
    (oos_phrases.any (fun p => pyIn p s) = true →
      stock_status_from_page_html s = "oos") ∧
    (oos_phrases.any (fun p => pyIn p s) = false →
      in_stock_phrases.any (fun p => pyIn p s) = true →
      stock_status_from_page_html s = "in_stock") ∧
    (oos_phrases.any (fun p => pyIn p s) = false →
      in_stock_phrases.any (fun p => pyIn p s) = false →
      stock_status_from_page_html s = "unknown") := by
  refine ⟨ ?_, ?_, ?_ ⟩
  · intro h
    simp [stock_status_from_page_html, h]
  · intro h1 h2
    simp [stock_status_from_page_html, h1, h2]
  · intro h1 h2
    simp [stock_status_from_page_html, h1, h2]

/-- Witness for `stock_status_precedence`: a text containing phrases from both
sets is classified "oos". -/
theorem stock_status_precedence_witness :
    oos_phrases.any (fun p => pyIn p "add to cart now, sold out soon") = true ∧
    in_stock_phrases.any (fun p => pyIn p "add to cart now, sold out soon") = true ∧
    stock_status_from_page_html "add to cart now, sold out soon" = "oos" :=
  ⟨ by decide, by decide,
    (stock_status_precedence "add to cart now, sold out soon").1 (by decide) ⟩

/-! ## Claim C8 -/

/-- C8, counterexample: when the state file exists but `json.load` raises on
its corrupt contents, `load_state` propagates the exception instead of
returning the empty default — loading persisted state CAN fail hard. -/
theorem corrupt_state_raises :
    load_state true (PyResult.exc "Expecting value") =
      PyResult.exc "Expecting value" ∧
    ¬ (load_state true (PyResult.exc "Expecting value") = PyResult.ok empty_state) := by
  refine ⟨ rfl, by decide ⟩

/-- C8 (amended): when the state file is absent, `load_state` returns the
empty default structure and the run proceeds as a first run; but when the file
exists, the outcome of `json.load` is returned unguarded — in particular a
parse exception on unreadable/corrupted contents propagates and aborts the
run. -/
theorem load_state_amended :
    (∀ parsed : PyResult BotState, load_state false parsed = PyResult.ok empty_state) ∧
    (∀ msg : String, load_state true (PyResult.exc msg) = PyResult.exc msg) ∧
    (∀ doc : BotState, load_state true (PyResult.ok doc) = PyResult.ok doc) :=
  ⟨ fun _ => rfl, fun _ => rfl, fun _ => rfl ⟩

/-! ## Claim C9 -/

/-- Characterization of the posting loop: chunks are attempted in order, each
at most once, stopping at (and including) the first failure; the `raised` flag
is set exactly when some chunk fails. -/
theorem postLoop_eq (post : String → Bool) (cs : List String) :
    postLoop post cs =
      (cs.take (cs.findIdx (fun c => !(post c)) + 1),
        cs.any (fun c => !(post c))) := by
  induction cs with
  | nil => simp [postLoop]
  | cons c rest ih =>
    by_cases hc : post c
    · simp [postLoop, hc, ih, List.findIdx_cons]
    · simp [postLoop, hc, List.findIdx_cons]

/-- C9, counterexample: a transport failure is NOT recovered: the exception
from `urlopen` escapes `send_discord` (`raised = true`), so the run does not
end successfully.  (The chunk is still attempted only once.) -/
theorem delivery_failure_is_fatal :
    send_discord true [ "boom" ] (fun _ => false) =
      ⟨ false, [ "boom" ], true ⟩ := by
  decide

/-- C9 (amended): each chunk receives at most one delivery attempt per run and
a failed chunk is never retried — the attempted chunks are exactly the prefix
of the chunk list up to and including the first failing one — but a transport
failure is not merely logged: it raises out of `send_discord` (aborting the
remaining chunks and the run), rather than leaving the run successful. -/
theorem send_discord_amended (messages : List String) (post : String → Bool) :
    send_discord true messages post =
      ⟨ false,
        ((chunksOf messages).map pyStrip).take
          (((chunksOf messages).map pyStrip).findIdx (fun c => !(post c)) + 1),
        ((chunksOf messages).map pyStrip).any (fun c => !(post c)) ⟩ := by
  by_cases hm : messages = []
  · subst hm
    simp [send_discord, show chunksOf [] = [] from rfl]
  · simp [send_discord, hm, postLoop_eq]

/-! ## Claim C7 -/

/-- `extract_le_piece_count` equals the four-pattern first-match chain on the
lower-cased, comma-stripped text (the `if not text` early return coincides
with the chain, which finds nothing in an empty text). -/
theorem extract_le_eq_chain (t : String) :
    extract_le_piece_count t =
      (match searchWithBoundary tryLE false (le_scan_text t) with
       | some n => some n
       | none =>
         match searchWithBoundary tryLimitedEdition false (le_scan_text t) with
         | some n => some n
         | none =>
           match searchWithBoundary tryPcs false (le_scan_text t) with
           | some n => some n
           | none => searchWithBoundary tryMax false (le_scan_text t)) := by
  by_cases ht : t = ""
  · subst ht; rfl
  · simp [extract_le_piece_count, ht]

/-- C7: limited-edition piece-count extraction lower-cases and comma-strips
the text (`le_scan_text`), tries the patterns `\ble\s*(\d{3,6})\b`,
`\blimited edition\s*(\d{3,6})\b`, `\b(\d{3,6})\s*(?:pcs|pieces)\b`,
`\bmax\.*\s*(\d{2,6})\b` in that fixed order, returns the integer from the
first matching pattern, and `none` when no pattern matches. -/
theorem le_extraction_pattern_order (t : String) :
    (∀ n, searchWithBoundary tryLE false (le_scan_text t) = some n →
      extract_le_piece_count t = some n) ∧
    (searchWithBoundary tryLE false (le_scan_text t) = none →
      ∀ n, searchWithBoundary tryLimitedEdition false (le_scan_text t) = some n →
        extract_le_piece_count t = some n) ∧
    (searchWithBoundary tryLE false (le_scan_text t) = none →
      searchWithBoundary tryLimitedEdition false (le_scan_text t) = none →
      ∀ n, searchWithBoundary tryPcs false (le_scan_text t) = some n →
        extract_le_piece_count t = some n) ∧
    (searchWithBoundary tryLE false (le_scan_text t) = none →
      searchWithBoundary tryLimitedEdition false (le_scan_text t) = none →
      searchWithBoundary tryPcs false (le_scan_text t) = none →
      ∀ n, searchWithBoundary tryMax false (le_scan_text t) = some n →
        extract_le_piece_count t = some n) ∧
    (searchWithBoundary tryLE false (le_scan_text t) = none →
      searchWithBoundary tryLimitedEdition false (le_scan_text t) = none →
      searchWithBoundary tryPcs false (le_scan_text t) = none →
      searchWithBoundary tryMax false (le_scan_text t) = none →
      extract_le_piece_count t = none) := by
  refine ⟨ ?_, ?_, ?_, ?_, ?_ ⟩
  · intro n h
    simp only [extract_le_eq_chain, h]
  · intro h1 n h
    simp only [extract_le_eq_chain, h1, h]
  · intro h1 h2 n h
    simp only [extract_le_eq_chain, h1, h2, h]
  · intro h1 h2 h3 n h
    simp only [extract_le_eq_chain, h1, h2, h3, h]
  · intro h1 h2 h3 h4
    simp only [extract_le_eq_chain, h1, h2, h3, h4]

/-- Witness for `le_extraction_pattern_order`: a text where pattern 1 fails
and pattern 2 supplies the result (with lower-casing and comma-stripping). -/
theorem le_extraction_pattern_order_witness :
    searchWithBoundary tryLE false (le_scan_text "Limited Edition 3,000") = none ∧
    searchWithBoundary tryLimitedEdition false (le_scan_text "Limited Edition 3,000") =
      some 3000 ∧
    extract_le_piece_count "Limited Edition 3,000" = some 3000 :=
  ⟨ by decide, by decide,
    (le_extraction_pattern_order "Limited Edition 3,000").2.1 (by decide) 3000 (by decide) ⟩

/-! ## Detail-step characterization lemmas -/

/-- When `should_open` holds and the fetch succeeds, the per-item step runs
the detail block. -/
theorem main_item_step_open (prev : Option ItemRec) (name title product_url : String)
    (lp : Option String) (now : Nat) (fr : Fetched)
    (hopen : should_open title product_url = true) :
    main_item_step prev name title product_url lp now (some fr) =
      detail_step prev title product_url lp
        (minimal_record prev name title product_url lp now)
        (prev.isNone && matches_anime_and_hard title) fr := by
  simp [main_item_step, hopen]

/-- The record written by the detail block: product-level fields overwritten
with this run's observations. -/
theorem detail_step_rec (prev : Option ItemRec) (title product_url : String)
    (lp : Option String) (rec0 : ItemRec) (newL : Bool) (fr : Fetched) :
    (detail_step prev title product_url lp rec0 newL fr).1 =
      { rec0 with
        last_stock := some (observed_stock fr)
        last_price := observed_price lp fr
        last_price_text := observed_price_text lp fr
        last_funko_exclusive :=
          if pyIn "funko.com" product_url then
            some (funko_is_exclusive_or_limited (pyLower fr.html))
          else none
        last_le_count := observed_le_count title fr } := rfl

/-- The alerts decided by the detail block, as explicit boolean conditions on
the previous record and this run's observations. -/
theorem detail_step_alerts (prev : Option ItemRec) (title product_url : String)
    (lp : Option String) (rec0 : ItemRec) (newL : Bool) (fr : Fetched) :
    (detail_step prev title product_url lp rec0 newL fr).2 =
      ⟨ newL,
        item_qualifies title product_url (pyLower fr.html) &&
          (decide (prev.bind (fun r => r.last_stock) = none) ||
            decide (prev.bind (fun r => r.last_stock) = some "oos") ||
            decide (prev.bind (fun r => r.last_stock) = some "unknown")) &&
          decide (observed_stock fr = "in_stock"),
        item_qualifies title product_url (pyLower fr.html) &&
          (observed_price lp fr).isSome &&
          (prev.bind (fun r => r.last_price)).isSome &&
          decide (¬ (observed_price lp fr = prev.bind (fun r => r.last_price))),
        pyIn "funko.com" product_url && is_anime_title title &&
          (if pyIn "funko.com" product_url then
            some (funko_is_exclusive_or_limited (pyLower fr.html))
          else none).getD false &&
          !((prev.bind (fun r => r.last_funko_exclusive)).getD false),
        item_qualifies title product_url (pyLower fr.html) &&
          (match observed_le_count title fr with
           | some n => decide (n ≤ ULTRA_RARE_MAX)
           | none => false) &&
          decide (¬ (prev.bind (fun r => r.last_le_count) = observed_le_count title fr)) ⟩ :=
  rfl

/-- A stock flip can never fire when the previous stock equals this run's
observed stock: equality with "in_stock" and membership in the flip-eligible
set exclude each other. -/
theorem flip_same_stock_false (q : Bool) (s : String) :
    (q &&
      (decide ((some s : Option String) = none) || decide (some s = some "oos") ||
        decide (some s = some "unknown")) &&
      decide (s = "in_stock")) = false := by
  by_cases hs : s = "in_stock"
  · subst hs
    cases q <;> decide
  · simp [hs]

/-- The LE guard of the ultra-rare alert, as a proposition. -/
theorem ultra_guard_iff (c : Option Nat) :
    ((match c with
      | some n => decide (n ≤ ULTRA_RARE_MAX)
      | none => false) = true) ↔ ∃ n, c = some n ∧ n ≤ ULTRA_RARE_MAX := by
  cases c <;> simp

/-- An ultra-rare alert can never fire when the previous stored count equals
this run's observed count. -/
theorem ultra_same_count_false (q : Bool) (c : Option Nat) :
    (q &&
      (match c with
       | some n => decide (n ≤ ULTRA_RARE_MAX)
       | none => false) &&
      decide (¬ (c = c))) = false := by
  simp

/-! ## Claim C5 -/

/-- C5: for a qualifying, deep-checked item the InStockFlip alert fires
exactly when the previous stock value was "oos", "unknown" or absent and the
observed value is "in_stock"; a second run observing the identical page
produces no further flip; and an in-stock → out-of-stock → in-stock sequence
re-triggers the alert on the third run. -/
theorem in_stock_flip_rules (prev : Option ItemRec) (name title product_url : String)
    (lp : Option String) (now1 now2 now3 : Nat) (fr frIn frOos : Fetched)
    (hopen : should_open title product_url = true)
    (hq : item_qualifies title product_url (pyLower fr.html) = true)
    (hqIn : item_qualifies title product_url (pyLower frIn.html) = true)
    (hin : observed_stock frIn = "in_stock")
    (hoos : observed_stock frOos = "oos") :
    ((main_item_step prev name title product_url lp now1 (some fr)).2.inStockFlip = true ↔
      ((prev.bind (fun r => r.last_stock) = none ∨
        prev.bind (fun r => r.last_stock) = some "oos" ∨
        prev.bind (fun r => r.last_stock) = some "unknown") ∧
        observed_stock fr = "in_stock")) ∧
    ((main_item_step
        (some (main_item_step prev name title product_url lp now1 (some fr)).1)
        name title product_url lp now2 (some fr)).2.inStockFlip = false) ∧
    ((main_item_step
        (some (main_item_step
          (some (main_item_step prev name title product_url lp now1 (some frIn)).1)
          name title product_url lp now2 (some frOos)).1)
        name title product_url lp now3 (some frIn)).2.inStockFlip = true) := by
  refine ⟨ ?_, ?_, ?_ ⟩
  · simp only [main_item_step_open, hopen, detail_step_alerts, hq, true_and,
      Bool.true_and, Bool.and_eq_true, Bool.or_eq_true, decide_eq_true_iff]
    tauto
  · simp only [main_item_step_open, hopen, detail_step_alerts, detail_step_rec,
      Option.bind]
    exact flip_same_stock_false _ _
  · simp only [main_item_step_open, hopen, detail_step_alerts, detail_step_rec,
      Option.bind, hqIn, hin, hoos]
    simp

/-- Witness for `in_stock_flip_rules` on a concrete non-funko item: first run
flips (no previous stock, page in stock), an identical second run does not,
and in → oos → in re-triggers. -/
theorem in_stock_flip_rules_witness :
    should_open "Naruto Exclusive Pop" "https://hmv.com/store/naruto-pop" = true ∧
    item_qualifies "Naruto Exclusive Pop" "https://hmv.com/store/naruto-pop"
      (pyLower "Add to basket") = true ∧
    observed_stock ⟨ "Add to basket", "" ⟩ = "in_stock" ∧
    observed_stock ⟨ "Sold Out", "" ⟩ = "oos" ∧
    (((main_item_step none "HMV" "Naruto Exclusive Pop" "https://hmv.com/store/naruto-pop"
        none 1 (some ⟨ "Add to basket", "" ⟩)).2.inStockFlip = true ↔
      (((none : Option ItemRec).bind (fun r => r.last_stock) = none ∨
        (none : Option ItemRec).bind (fun r => r.last_stock) = some "oos" ∨
        (none : Option ItemRec).bind (fun r => r.last_stock) = some "unknown") ∧
        observed_stock ⟨ "Add to basket", "" ⟩ = "in_stock")) ∧
      ((main_item_step
        (some (main_item_step none "HMV" "Naruto Exclusive Pop"
          "https://hmv.com/store/naruto-pop" none 1 (some ⟨ "Add to basket", "" ⟩)).1)
        "HMV" "Naruto Exclusive Pop" "https://hmv.com/store/naruto-pop"
        none 2 (some ⟨ "Add to basket", "" ⟩)).2.inStockFlip = false) ∧
      ((main_item_step
        (some (main_item_step
          (some (main_item_step none "HMV" "Naruto Exclusive Pop"
            "https://hmv.com/store/naruto-pop" none 1 (some ⟨ "Add to basket", "" ⟩)).1)
          "HMV" "Naruto Exclusive Pop" "https://hmv.com/store/naruto-pop"
          none 2 (some ⟨ "Sold Out", "" ⟩)).1)
        "HMV" "Naruto Exclusive Pop" "https://hmv.com/store/naruto-pop"
        none 3 (some ⟨ "Add to basket", "" ⟩)).2.inStockFlip = true)) :=
  ⟨ by decide, by decide, by decide, by decide,
    in_stock_flip_rules none "HMV" "Naruto Exclusive Pop"
      "https://hmv.com/store/naruto-pop" none 1 2 3
      ⟨ "Add to basket", "" ⟩ ⟨ "Add to basket", "" ⟩ ⟨ "Sold Out", "" ⟩
      (by decide) (by decide) (by decide) (by decide) (by decide) ⟩

/-! ## Claim C4 -/

/-- C4, counterexample to "differs from the previously alerted LE count": a
non-funko item (which always qualifies, and is deep-checked every run) is
observed three times: LE 2000 on the page, then a page without any count,
then LE 2000 again.  The code alerts on run 1 AND run 3 — the stored
`last_le_count` was overwritten with null in run 2 — although 2000 is exactly
the previously alerted count, for which the spec rule (tracked by
`spec_ultra_trace`) forbids a second alert. -/
theorem ultra_rare_realert_counterexample :
    ((run_steps "HMV" "Naruto Exclusive Pop" "https://hmv.com/store/naruto-pop" none none
        [ (1, some ⟨ "x", "Limited Edition 2,000" ⟩),
          (2, some ⟨ "x", "" ⟩),
          (3, some ⟨ "x", "Limited Edition 2,000" ⟩) ]).map (fun r => r.2.ultraRare) =
      [ true, false, true ]) ∧
    ((run_steps "HMV" "Naruto Exclusive Pop" "https://hmv.com/store/naruto-pop" none none
        [ (1, some ⟨ "x", "Limited Edition 2,000" ⟩),
          (2, some ⟨ "x", "" ⟩),
          (3, some ⟨ "x", "Limited Edition 2,000" ⟩) ]).map (fun r => r.1.last_le_count) =
      [ some 2000, none, some 2000 ]) ∧
    item_qualifies "Naruto Exclusive Pop" "https://hmv.com/store/naruto-pop"
      (pyLower "x") = true ∧
    spec_ultra_trace ULTRA_RARE_MAX none
      [ (true, some 2000), (true, none), (true, some 2000) ] =
      [ true, false, false ] := by
  refine ⟨ by decide, by decide, by decide, by decide ⟩

/-- C4 (amended): for a deep-checked item the UltraRareSignal fires exactly
when the item qualifies, an LE count is extracted this run, it is at most
`ULTRA_RARE_MAX`, and it differs from the count STORED by the previous detail
fetch (`last_le_count`, which is overwritten on every detail fetch — including
with null when no count is extracted); an immediately following run with the
identical observation never fires a second alert. -/
theorem ultra_rare_amended (prev : Option ItemRec) (name title product_url : String)
    (lp : Option String) (now1 now2 : Nat) (fr : Fetched)
    (hopen : should_open title product_url = true) :
    ((main_item_step prev name title product_url lp now1 (some fr)).2.ultraRare = true ↔
      (item_qualifies title product_url (pyLower fr.html) = true ∧
        ∃ n, observed_le_count title fr = some n ∧ n ≤ ULTRA_RARE_MAX ∧
          ¬ (prev.bind (fun r => r.last_le_count) = some n))) ∧
    ((main_item_step
        (some (main_item_step prev name title product_url lp now1 (some fr)).1)
        name title product_url lp now2 (some fr)).2.ultraRare = false) := by
  constructor
  · simp only [main_item_step_open, hopen, detail_step_alerts, Bool.and_eq_true,
      ultra_guard_iff, decide_eq_true_iff]
    constructor
    · rintro ⟨ ⟨ hq, n, hn, hmax ⟩, hne ⟩
      refine ⟨ hq, n, hn, hmax, ?_ ⟩
      rw [hn] at hne
      exact hne
    · rintro ⟨ hq, n, hn, hmax, hne ⟩
      refine ⟨ ⟨ hq, n, hn, hmax ⟩, ?_ ⟩
      rw [hn]
      exact hne
  · simp only [main_item_step_open, hopen, detail_step_alerts, detail_step_rec,
      Option.bind]
    simp

/-- Witness for `ultra_rare_amended` on the concrete LE-2000 scenario. -/
theorem ultra_rare_amended_witness :
    should_open "Naruto Exclusive Pop" "https://hmv.com/store/naruto-pop" = true ∧
    (((main_item_step none "HMV" "Naruto Exclusive Pop"
        "https://hmv.com/store/naruto-pop" none 1
        (some ⟨ "x", "Limited Edition 2,000" ⟩)).2.ultraRare = true ↔
      (item_qualifies "Naruto Exclusive Pop" "https://hmv.com/store/naruto-pop"
          (pyLower "x") = true ∧
        ∃ n, observed_le_count "Naruto Exclusive Pop" ⟨ "x", "Limited Edition 2,000" ⟩ =
            some n ∧ n ≤ ULTRA_RARE_MAX ∧
          ¬ ((none : Option ItemRec).bind (fun r => r.last_le_count) = some n))) ∧
      ((main_item_step
        (some (main_item_step none "HMV" "Naruto Exclusive Pop"
          "https://hmv.com/store/naruto-pop" none 1
          (some ⟨ "x", "Limited Edition 2,000" ⟩)).1)
        "HMV" "Naruto Exclusive Pop" "https://hmv.com/store/naruto-pop" none 2
        (some ⟨ "x", "Limited Edition 2,000" ⟩)).2.ultraRare = false)) :=
  ⟨ by decide,
    ultra_rare_amended none "HMV" "Naruto Exclusive Pop"
      "https://hmv.com/store/naruto-pop" none 1 2
      ⟨ "x", "Limited Edition 2,000" ⟩ (by decide) ⟩

/-! ## Claim C10 -/

/-- C10: a candidate whose title carries no anime keyword is never
deep-checked: `should_open` is false, the product-page fetch outcome is never
consulted (the step's result does not depend on it), and the only alert that
can fire for the item that run is NewListing. -/
theorem no_anime_no_fetch (prev : Option ItemRec) (name title product_url : String)
    (lp : Option String) (now : Nat) (fetched : Option Fetched)
    (h : is_anime_title title = false) :
    should_open title product_url = false ∧
    main_item_step prev name title product_url lp now fetched =
      main_item_step prev name title product_url lp now none ∧
    (main_item_step prev name title product_url lp now none).2 =
      ⟨ prev.isNone && matches_anime_and_hard title, false, false, false, false ⟩ := by
  have hso : should_open title product_url = false := by
    simp [should_open, h]
  refine ⟨ hso, ?_, ?_ ⟩
  · simp [main_item_step, hso]
  · simp [main_item_step, hso]

/-- Witness for `no_anime_no_fetch`: a hard-keyword title without any anime
keyword, observed with a fetch result that is provably ignored. -/
theorem no_anime_no_fetch_witness :
    is_anime_title "Exclusive Plain Figure" = false ∧
    (should_open "Exclusive Plain Figure" "https://hmv.com/store/plain" = false ∧
      main_item_step none "HMV" "Exclusive Plain Figure" "https://hmv.com/store/plain"
          none 5 (some ⟨ "add to basket", "LE 500" ⟩) =
        main_item_step none "HMV" "Exclusive Plain Figure" "https://hmv.com/store/plain"
          none 5 none ∧
      (main_item_step none "HMV" "Exclusive Plain Figure" "https://hmv.com/store/plain"
          none 5 none).2 =
        ⟨ (none : Option ItemRec).isNone && matches_anime_and_hard "Exclusive Plain Figure",
          false, false, false, false ⟩) :=
  ⟨ by decide,
    no_anime_no_fetch none "HMV" "Exclusive Plain Figure" "https://hmv.com/store/plain"
      none 5 (some ⟨ "add to basket", "LE 500" ⟩) (by decide) ⟩

end Dropbot
